import Mathlib

/-!
Shallow embedding of the covid-dashboard update scheduler
(src/covid_data_handler.py, src/covid_news_handling.py, src/covid_dashboard.py).

Modelling conventions:
- Wall-clock instants are integers counting microseconds since an epoch
  (`datetime.datetime` with microsecond resolution); `timedelta` arithmetic is
  integer arithmetic on this scale.  Each embedded call freezes a single `now`
  (the Python source re-reads `datetime.datetime.now()` a few microseconds
  apart inside one call; the embedding uses one observation per call).
- Python strings are Lean `String`s restricted to ASCII; `str.isdigit`,
  `int(...)` and `str.split(":")` are embedded below on the ASCII fragment.
- Fallible Python code (KeyError / ValueError / IndexError) is embedded in
  `Except PyError`.
- The external HTTP fetches (`uk_covid19.Cov19API`, `requests.get`) are
  abstracted as an explicit outcome argument: `Except Unit payload`, where
  `Except.error ()` is the transport/connectivity failure that the source
  catches (`FailedRequestError` / `ConnectionError` / `Timeout`).
- Module-level mutable globals (`covid_data`, `national_covid_data`, `news`,
  `formatted_news`, `removed_articles`, the two `scheduled_updates` dicts and
  the two `sched.scheduler` queues) become explicit state records threaded
  through the functions.  A `sched.scheduler.enter` call is modelled as
  appending `(delay_in_microseconds, update_name)` to the domain's queue.
-/

/-! ## Time model -/

def usPerSecond : Int := 1000000

def usPerMinute : Int := 60 * usPerSecond

def usPerHour : Int := 60 * usPerMinute

def usPerDay : Int := 24 * usPerHour

/-- Midnight of the day containing `t` (what `.replace(hour=…)` keeps). -/
def dayStart (t : Int) : Int := (t.fdiv usPerDay) * usPerDay

/-- `t.replace(hour=h, minute=m, second=0, microsecond=0)`. -/
def replaceHM (t h m : Int) : Int := dayStart t + h * usPerHour + m * usPerMinute

/-- `t.hour`. -/
def hourOf (t : Int) : Int := (t - dayStart t).fdiv usPerHour

/-- `t.minute`. -/
def minuteOf (t : Int) : Int := ((t - dayStart t) - hourOf t * usPerHour).fdiv usPerMinute

/-! ## Python exceptions, `int(...)`, `str.isdigit`, `str.split(":")` -/

inductive PyError where
  | keyError (k : String)
  | valueError (s : String)
  | indexError
deriving DecidableEq, Repr

/-- Numeric value of a list of ASCII digits. -/
def digitsVal (cs : List Char) : Nat := cs.foldl (fun a c => 10 * a + (c.toNat - 48)) 0

/-- `str.isdigit()` on the ASCII fragment: nonempty and all chars `0`-`9`. -/
def isDigitsStr (s : String) : Bool := (!s.toList.isEmpty) && s.toList.all Char.isDigit

/-- `int(s)` on the ASCII fragment: an optional leading minus sign followed by
one or more digits; anything else raises `ValueError`. -/
def pyIntChars (cs : List Char) : Except PyError Int :=
  match cs with
  | c :: rest =>
      if c = '-' then
        if (!rest.isEmpty) && rest.all Char.isDigit then Except.ok (-(digitsVal rest : Int))
        else Except.error (PyError.valueError (String.mk cs))
      else
        if (!cs.isEmpty) && cs.all Char.isDigit then Except.ok (digitsVal cs)
        else Except.error (PyError.valueError (String.mk cs))
  | [] => Except.error (PyError.valueError (String.mk cs))

def pyInt (s : String) : Except PyError Int := pyIntChars s.toList

/-- `s.split(":")` on the character list. -/
def splitColon : List Char → List (List Char)
  | [] => [[]]
  | c :: rest =>
      let r := splitColon rest
      if c = ':' then [] :: r
      else
        match r with
        | h :: t => (c :: h) :: t
        | [] => [[c]]

/-! ## The two interval regular expressions

`covid_data_handler` uses `match("^([0-1]?[0-9]|2[0-3]):[0-5][0-9]$", s)`
(a full, anchored match) and `s.isdigit()`.

`covid_news_handling` uses `match("[0-9]{2}:[0-9]{}2", s)` — in Python's `re`
the malformed quantifier `{}` is taken literally, so this pattern matches
(as a prefix) exactly: digit, digit, `:`, digit, `\x7b`, `\x7d`, `2` —
and `match("[0-9]+", s)`, an unanchored prefix match (first char a digit).
-/

def covidHHMMMatch (s : String) : Bool :=
  match s.toList with
  | [h, c, m1, m2] =>
      (c = ':') && (h.isDigit && (('0' ≤ m1 && m1 ≤ '5') && m2.isDigit))
  | [h1, h2, c, m1, m2] =>
      (c = ':') &&
        ((((h1 = '0' || h1 = '1') && h2.isDigit) || (h1 = '2' && ('0' ≤ h2 && h2 ≤ '3'))) &&
          (('0' ≤ m1 && m1 ≤ '5') && m2.isDigit))
  | _ => false

def lbraceChar : Char := Char.ofNat 123

def rbraceChar : Char := Char.ofNat 125

def newsHHMMMatch (s : String) : Bool :=
  match s.toList with
  | a :: b :: c :: d :: e :: f :: g :: _ =>
      a.isDigit && b.isDigit && (c = ':') && d.isDigit &&
        (e = lbraceChar) && (f = rbraceChar) && (g = '2')
  | _ => false

def newsDigitsMatch (s : String) : Bool :=
  match s.toList with
  | c :: _ => c.isDigit
  | [] => false

/-! ## `time_to_update_interval`

`covid_data_handler.time_to_update_interval` and
`covid_news_handling.time_to_update_interval` have textually identical bodies;
the embedding defines the function once (delay is returned in microseconds,
the source returns `timedelta.total_seconds()`, i.e. the same quantity in
seconds). -/

def time_to_update_interval (now : Int) (update_interval : String) :
    Except PyError (Int × Int) :=
  match splitColon update_interval.toList with
  | [a, b] =>
      match pyIntChars a with
      | Except.error e => Except.error e
      | Except.ok hrs =>
          match pyIntChars b with
          | Except.error e => Except.error e
          | Except.ok mins =>
              let update_time := replaceHM now hrs mins
              let update_time := if update_time < now then update_time + usPerDay
                                 else update_time
              Except.ok (update_time - now, update_time)
  | _ => Except.error (PyError.valueError update_interval)

/-! ## Registries and scheduler queues -/

structure UpdateEntry where
  update_time : Int
  repeat_flag : Bool
deriving DecidableEq, Repr

abbrev Registry := List (String × UpdateEntry)

abbrev SchedQueue := List (Int × String)

def regLookup (r : Registry) (n : String) : Option UpdateEntry := r.lookup n

def regInsert (r : Registry) (n : String) (e : UpdateEntry) : Registry := r ++ [(n, e)]

def regErase (r : Registry) (n : String) : Registry := r.filter (fun p => p.1 != n)

/-- `del d[k]`: `KeyError` when the key is absent. -/
def pyDel (r : Registry) (n : String) : Except PyError Registry :=
  if (regLookup r n).isSome then Except.ok (regErase r n)
  else Except.error (PyError.keyError n)

/-! ## Covid-data domain (src/covid_data_handler.py) -/

/-- One data row, as the API/CSV delivers it: a dict from column name to a
string value ("" for a null/empty statistic). -/
abbrev CovidRecord := List (String × String)

/-- `item[k]` on a record. -/
def pyGet (r : CovidRecord) (k : String) : Except PyError String :=
  match r.lookup k with
  | some v => Except.ok v
  | none => Except.error (PyError.keyError k)

/-- The module-level dicts `covid_data` / `national_covid_data`: initially the
empty dict `\x7b\x7d` (falsy); after any `covid_API_request` a dict
`\x7b"data": rows-or-None\x7d` (truthy). -/
inductive SnapDict where
  | emptyDict
  | dataDict (rows : Option (List CovidRecord))
deriving DecidableEq, Repr

def snapTruthy : SnapDict → Bool
  | SnapDict.emptyDict => false
  | SnapDict.dataDict _ => true

structure CovidState where
  covid_data : SnapDict
  national_covid_data : SnapDict
  scheduled_updates : Registry
  queue : SchedQueue
deriving DecidableEq, Repr

/-- The `update_interval` parameter of the two `schedule_*_updates`
procedures: `int | str | datetime.datetime`. -/
inductive IntervalSpec where
  | int (n : Int)
  | str (s : String)
  | dt (t : Int)
deriving DecidableEq, Repr

/-- The parse phase of `schedule_covid_updates` (lines 270–304): the three
`isinstance` branches.  `Except.ok none` is the early `return None` on an
unparseable string; `Except.ok (some (time_to_update, update_time))`
otherwise.  A digit string falls through to the `int` branch via
`int(update_interval)`. -/
def covidParseInterval (now : Int) (update_interval : IntervalSpec) :
    Except PyError (Option (Int × Int)) :=
  match update_interval with
  | IntervalSpec.str s =>
      if covidHHMMMatch s then
        match time_to_update_interval now s with
        | Except.error e => Except.error e
        | Except.ok p => Except.ok (some p)
      else if isDigitsStr s then
        match pyInt s with
        | Except.error e => Except.error e
        | Except.ok n =>
            Except.ok (some (|n| * usPerSecond, now + n * usPerSecond))
      else Except.ok none
  | IntervalSpec.dt t =>
      let update_time :=
        if t < now then
          let ut := replaceHM now (hourOf t) (minuteOf t)
          if ut < now then ut + usPerDay else ut
        else t
      Except.ok (some (update_time - now, update_time))
  | IntervalSpec.int n =>
      Except.ok (some (|n| * usPerSecond, now + n * usPerSecond))

def schedule_covid_updates (update_interval : IntervalSpec) (update_name : String)
    (repeat_flag : Bool) (now : Int) (st : CovidState) : Except PyError CovidState :=
  match covidParseInterval now update_interval with
  | Except.error e => Except.error e
  | Except.ok none => Except.ok st
  | Except.ok (some (time_to_update, update_time)) =>
      if regLookup st.scheduled_updates update_name = none then
        Except.ok { st with
          queue := st.queue ++ [(time_to_update, update_name)],
          scheduled_updates :=
            regInsert st.scheduled_updates update_name ⟨update_time, repeat_flag⟩ }
      else
        Except.ok st

/-- `covid_API_request` (lines 153–199).  `outcome` abstracts the HTTP fetch:
on success the function returns the API dict `\x7b"data": rows\x7d`; on a caught
transport failure it schedules a 30-second retry named "API Retry" and
returns `\x7b"data": None\x7d`. -/
def covid_API_request (outcome : Except Unit (List CovidRecord)) (now : Int)
    (st : CovidState) : Except PyError (SnapDict × CovidState) :=
  match outcome with
  | Except.ok rows => Except.ok (SnapDict.dataDict (some rows), st)
  | Except.error _ =>
      match schedule_covid_updates (IntervalSpec.int 30) "API Retry" false now st with
      | Except.error e => Except.error e
      | Except.ok st' => Except.ok (SnapDict.dataDict none, st')

/-- `sch_update_covid_data` (lines 201–230): delete the registry entry, fetch
the local and national feeds, adopt any truthy response as the new snapshot,
and re-arm one day later when repeating.  `localOutcome`/`nationalOutcome`
abstract the two fetches. -/
def sch_update_covid_data (update_time : Int) (update_name : String)
    (repeat_flag : Bool) (localOutcome nationalOutcome : Except Unit (List CovidRecord))
    (now : Int) (st : CovidState) : Except PyError CovidState :=
  match pyDel st.scheduled_updates update_name with
  | Except.error e => Except.error e
  | Except.ok reg1 =>
      let st1 : CovidState := { st with scheduled_updates := reg1 }
      match covid_API_request localOutcome now st1 with
      | Except.error e => Except.error e
      | Except.ok (api_response, st2) =>
          match covid_API_request nationalOutcome now st2 with
          | Except.error e => Except.error e
          | Except.ok (national_api_response, st3) =>
              let st4 := if snapTruthy api_response then
                           { st3 with covid_data := api_response } else st3
              let st5 := if snapTruthy national_api_response then
                           { st4 with national_covid_data := national_api_response } else st4
              if repeat_flag then
                schedule_covid_updates (IntervalSpec.dt (update_time + usPerDay))
                  update_name repeat_flag now st5
              else Except.ok st5

/-! ## `process_covid_csv_data` (lines 95–151) -/

inductive PyStat where
  | val (n : Int)
  | na
deriving DecidableEq, Repr

/-- `next((i for i, item in enumerate(l) if item[k]), None)`: scan in order;
`item[k]` raises `KeyError` on a record lacking the key; a truthy (non-empty)
value stops the scan with its index. -/
def findTruthyIdx (l : List CovidRecord) (k : String) (i : Nat) :
    Except PyError (Option Nat) :=
  match l with
  | [] => Except.ok none
  | r :: rest =>
      match pyGet r k with
      | Except.error e => Except.error e
      | Except.ok v =>
          if v = "" then findTruthyIdx rest k (i + 1) else Except.ok (some i)

/-- `l[i]`. -/
def pyIndex (l : List CovidRecord) (i : Nat) : Except PyError CovidRecord :=
  match l.get? i with
  | some r => Except.ok r
  | none => Except.error PyError.indexError

/-- The 7-day summation loop: `for d in range(days): total += int(l[first+d]["new_cases"])`,
errors raised at the first failing index (ascending). -/
def sumWindow (l : List CovidRecord) (first days : Nat) : Except PyError Int :=
  match days with
  | 0 => Except.ok 0
  | d + 1 =>
      match pyIndex l first with
      | Except.error e => Except.error e
      | Except.ok r =>
          match pyGet r "new_cases" with
          | Except.error e => Except.error e
          | Except.ok v =>
              match pyInt v with
              | Except.error e => Except.error e
              | Except.ok n =>
                  match sumWindow l (first + 1) d with
                  | Except.error e => Except.error e
                  | Except.ok rest => Except.ok (n + rest)

/-- The shared shape of the hospital-cases and cumulative-deaths blocks
(the source repeats this block verbatim for the two statistics):
find the first record with a truthy value under `k` and convert it with
`int(...)`; `N/A` when none exists. -/
def statFromLatest (l : List CovidRecord) (k : String) : Except PyError PyStat :=
  match findTruthyIdx l k 0 with
  | Except.error e => Except.error e
  | Except.ok none => Except.ok PyStat.na
  | Except.ok (some i) =>
      match pyIndex l i with
      | Except.error e => Except.error e
      | Except.ok r =>
          match pyGet r k with
          | Except.error e => Except.error e
          | Except.ok v =>
              match pyInt v with
              | Except.error e => Except.error e
              | Except.ok n => Except.ok (PyStat.val n)

def process_covid_csv_data (covid_data_local : List CovidRecord) :
    Except PyError (PyStat × PyStat × PyStat) :=
  match findTruthyIdx covid_data_local "new_cases" 0 with
  | Except.error e => Except.error e
  | Except.ok fd =>
      let totalE : Except PyError PyStat :=
        match fd with
        | some i =>
            let first := i + 1
            let days := if covid_data_local.length - first > 7 then 7
                        else covid_data_local.length - first
            match sumWindow covid_data_local first days with
            | Except.error e => Except.error e
            | Except.ok n => Except.ok (PyStat.val n)
        | none => Except.ok PyStat.na
      match totalE with
      | Except.error e => Except.error e
      | Except.ok total =>
          match statFromLatest covid_data_local "hospital_cases" with
          | Except.error e => Except.error e
          | Except.ok hospital_cases =>
              match statFromLatest covid_data_local "cum_deaths" with
              | Except.error e => Except.error e
              | Except.ok cum_deaths =>
                  Except.ok (total, hospital_cases, cum_deaths)

/-! ## News domain (src/covid_news_handling.py) -/

structure Article where
  title : String
  url : String
  content : String
deriving DecidableEq, Repr

structure FormattedArticle where
  title : String
  content : String
deriving DecidableEq, Repr

/-- A decoded News-API JSON response: `resp["status"]` and `resp["articles"]`. -/
structure NewsResp where
  status : String
  articles : List Article
deriving DecidableEq, Repr

structure NewsState where
  news : List Article
  formatted_news : List FormattedArticle
  removed_articles : List String
  scheduled_updates : Registry
  queue : SchedQueue
deriving DecidableEq, Repr

def quoteChar : Char := Char.ofNat 39

/-- The `Markup(f"<a href = ...>")` hyperlink string built by `news_formatter`
(content truncated to 100 characters). -/
def markupContent (url content : String) : String :=
  let q := String.mk [quoteChar]
  "<a href = " ++ q ++ url ++ q ++ "\n                         style = " ++ q ++
    "color:black" ++ q ++ ">" ++ (content.take 100) ++ "...</a>"

/-- `news_formatter` (lines 81–100): the first five articles, each formatted
to a title plus a hyperlinked 100-character snippet.  (`news[:5]` when
`len(news) >= 5`, `news[:]` otherwise — both are `take 5`.) -/
def news_formatter (news : List Article) : List FormattedArticle :=
  (news.take 5).map (fun a => ⟨a.title, markupContent a.url a.content⟩)

/-- The parse phase of `schedule_news_updates` (lines 174–208): identical to
the covid one except for the two (laxer, unanchored) regular expressions. -/
def newsParseInterval (now : Int) (update_interval : IntervalSpec) :
    Except PyError (Option (Int × Int)) :=
  match update_interval with
  | IntervalSpec.str s =>
      if newsHHMMMatch s then
        match time_to_update_interval now s with
        | Except.error e => Except.error e
        | Except.ok p => Except.ok (some p)
      else if newsDigitsMatch s then
        match pyInt s with
        | Except.error e => Except.error e
        | Except.ok n =>
            Except.ok (some (|n| * usPerSecond, now + n * usPerSecond))
      else Except.ok none
  | IntervalSpec.dt t =>
      let update_time :=
        if t < now then
          let ut := replaceHM now (hourOf t) (minuteOf t)
          if ut < now then ut + usPerDay else ut
        else t
      Except.ok (some (update_time - now, update_time))
  | IntervalSpec.int n =>
      Except.ok (some (|n| * usPerSecond, now + n * usPerSecond))

def schedule_news_updates (update_interval : IntervalSpec) (update_name : String)
    (repeat_flag : Bool) (now : Int) (st : NewsState) : Except PyError NewsState :=
  match newsParseInterval now update_interval with
  | Except.error e => Except.error e
  | Except.ok none => Except.ok st
  | Except.ok (some (time_to_update, update_time)) =>
      if regLookup st.scheduled_updates update_name = none then
        Except.ok { st with
          queue := st.queue ++ [(time_to_update, update_name)],
          scheduled_updates :=
            regInsert st.scheduled_updates update_name ⟨update_time, repeat_flag⟩ }
      else
        Except.ok st

/-- `news_API_request` (lines 34–64).  On success returns the decoded JSON;
on a caught transport failure (`ConnectionError`/`Timeout`) it schedules a
30-second retry named "API Retry" and returns `None` (the implicit return). -/
def news_API_request (outcome : Except Unit NewsResp) (now : Int) (st : NewsState) :
    Except PyError (Option NewsResp × NewsState) :=
  match outcome with
  | Except.ok resp => Except.ok (some resp, st)
  | Except.error _ =>
      match schedule_news_updates (IntervalSpec.int 30) "API Retry" false now st with
      | Except.error e => Except.error e
      | Except.ok st' => Except.ok (none, st')

/-- `update_news` (lines 66–79): fetch, then `news.clear()`, then — only for a
truthy, non-error response — refill `news` with the fetched articles whose
titles are not in `removed_articles` and recompute `formatted_news`. -/
def update_news (outcome : Except Unit NewsResp) (now : Int) (st : NewsState) :
    Except PyError NewsState :=
  match news_API_request outcome now st with
  | Except.error e => Except.error e
  | Except.ok (api_response, st1) =>
      let st2 : NewsState := { st1 with news := [] }
      match api_response with
      | none => Except.ok st2
      | some resp =>
          if resp.status = "error" then Except.ok st2
          else
            let newNews := resp.articles.filter
              (fun a => decide (a.title ∉ st2.removed_articles))
            Except.ok { st2 with news := newNews,
                                 formatted_news := news_formatter newNews }

/-- `add_removed_article` (lines 102–118): record the title permanently,
delete the first article with that title from the live list
(`article_titles.index(t)` / `del news[i]`) when present, and always
recompute the display list. -/
def add_removed_article (article_title : String) (st : NewsState) : NewsState :=
  let removed' := st.removed_articles ++ [article_title]
  let article_titles := st.news.map Article.title
  let news' := if article_title ∈ article_titles then
                 st.news.eraseP (fun a => a.title == article_title)
               else st.news
  { st with removed_articles := removed',
            news := news',
            formatted_news := news_formatter news' }

/-- `sch_update_news` (lines 120–136): delete the registry entry, run
`update_news`, and re-arm one day later when repeating. -/
def sch_update_news (update_time : Int) (update_name : String) (repeat_flag : Bool)
    (outcome : Except Unit NewsResp) (now : Int) (st : NewsState) :
    Except PyError NewsState :=
  match pyDel st.scheduled_updates update_name with
  | Except.error e => Except.error e
  | Except.ok reg1 =>
      let st1 : NewsState := { st with scheduled_updates := reg1 }
      match update_news outcome now st1 with
      | Except.error e => Except.error e
      | Except.ok st2 =>
          if repeat_flag then
            schedule_news_updates (IntervalSpec.dt (update_time + usPerDay))
              update_name repeat_flag now st2
          else Except.ok st2

/-! ## Dashboard collator (src/covid_dashboard.py, lines 112–133) -/

structure MergedEntry where
  covid : Bool
  news : Bool
  time : Int
  repeat_flag : Bool
deriving DecidableEq, Repr

abbrev MergedView := List (String × MergedEntry)

/-- `collate_update_lists`: first loop over the covid registry (an entry per
name, flags and displayed time/repeat from the covid entry, `news` flag by
membership in the news registry); second loop adds news-only names. -/
def collate_update_lists (covid_reg news_reg : Registry) : MergedView :=
  let first_pass := covid_reg.foldl (fun acc p =>
      match regLookup news_reg p.1 with
      | some _ => acc ++ [(p.1, ⟨true, true, p.2.update_time, p.2.repeat_flag⟩)]
      | none => acc ++ [(p.1, ⟨true, false, p.2.update_time, p.2.repeat_flag⟩)]) []
  news_reg.foldl (fun acc q =>
      if (acc.lookup q.1).isSome then acc
      else acc ++ [(q.1, ⟨false, true, q.2.update_time, q.2.repeat_flag⟩)]) first_pass

/-! ## Association-list lemmas -/

theorem lookup_append_some {β : Type} (k : String) (l₁ l₂ : List (String × β)) (v : β)
    (h : List.lookup k l₁ = some v) : List.lookup k (l₁ ++ l₂) = some v := by
  induction l₁ with
  | nil => simp [List.lookup] at h
  | cons p rest ih =>
      cases p with
      | mk a b =>
        simp only [List.cons_append, List.lookup] at h ⊢
        cases hk : (k == a) with
        | true => simp [hk] at h ⊢; exact h
        | false => simp only [hk] at h ⊢; exact ih h

theorem lookup_append_none {β : Type} (k : String) (l₁ l₂ : List (String × β))
    (h : List.lookup k l₁ = none) : List.lookup k (l₁ ++ l₂) = List.lookup k l₂ := by
  induction l₁ with
  | nil => simp
  | cons p rest ih =>
      cases p with
      | mk a b =>
        simp only [List.cons_append, List.lookup] at h ⊢
        cases hk : (k == a) with
        | true => simp [hk] at h
        | false => simp only [hk] at h ⊢; exact ih h

theorem lookup_isSome_iff_mem_keys {β : Type} (k : String) (l : List (String × β)) :
    (List.lookup k l).isSome = true ↔ k ∈ l.map Prod.fst := by
  induction l with
  | nil => simp [List.lookup]
  | cons p rest ih =>
      cases p with
      | mk a b =>
        simp only [List.lookup, List.map_cons, List.mem_cons]
        cases hk : (k == a) with
        | true => simp [beq_iff_eq.mp hk]
        | false =>
            have : ¬ k = a := by
              intro he; rw [he] at hk; simp at hk
            simp [hk, this, ih]

theorem regErase_lookup_self (r : Registry) (n : String) :
    regLookup (regErase r n) n = none := by
  unfold regLookup regErase
  induction r with
  | nil => rfl
  | cons p rest ih =>
      cases p with
      | mk a b =>
        by_cases han : a = n
        · simp only [List.filter, han, bne_self_eq_false]
          exact ih
        · have h1 : (a != n) = true := by simp [bne, han]
          have h2 : (n == a) = false := by
            cases hq : (n == a) with
            | true => exact absurd (beq_iff_eq.mp hq).symm han
            | false => rfl
          simp only [List.filter, h1, List.lookup, h2]
          exact ih

theorem regErase_lookup_ne (r : Registry) (n m : String) (h : m ≠ n) :
    regLookup (regErase r n) m = regLookup r m := by
  unfold regLookup regErase
  induction r with
  | nil => rfl
  | cons p rest ih =>
      cases p with
      | mk a b =>
        by_cases han : a = n
        · have h1 : (a != n) = false := by simp [bne, han]
          have h2 : (m == a) = false := by
            cases hq : (m == a) with
            | true => exact absurd ((beq_iff_eq.mp hq).trans han) h
            | false => rfl
          simp only [List.filter, h1, List.lookup, h2]
          exact ih
        · have h1 : (a != n) = true := by simp [bne, han]
          simp only [List.filter, h1, List.lookup]
          cases hq : (m == a) with
          | true => simp only [hq]
          | false => simp only [hq]; exact ih

theorem regInsert_lookup_self (r : Registry) (n : String) (e : UpdateEntry)
    (h : regLookup r n = none) : regLookup (regInsert r n e) n = some e := by
  unfold regInsert regLookup
  rw [lookup_append_none n r _ h]
  simp [List.lookup]

theorem regInsert_lookup_ne (r : Registry) (n m : String) (e : UpdateEntry)
    (h : m ≠ n) : regLookup (regInsert r n e) m = regLookup r m := by
  unfold regInsert regLookup
  have hf : (m == n) = false := by
    cases hq : (m == n) with
    | true => exact absurd (beq_iff_eq.mp hq) h
    | false => rfl
  cases hm : List.lookup m r with
  | some v => rw [lookup_append_some m r _ v hm]
  | none =>
      rw [lookup_append_none m r _ hm]
      simp [List.lookup, hf, hm]

/-! ## Behaviour lemmas for the covid scheduling module -/

theorem covidParseInterval_int (now n : Int) :
    covidParseInterval now (IntervalSpec.int n) =
      Except.ok (some (|n| * usPerSecond, now + n * usPerSecond)) := rfl

theorem covidParseInterval_dt_future (now t : Int) (h : ¬ t < now) :
    covidParseInterval now (IntervalSpec.dt t) = Except.ok (some (t - now, t)) := by
  simp [covidParseInterval, h]

theorem schedule_covid_updates_cases (spec : IntervalSpec) (nm : String) (rep : Bool)
    (now : Int) (st s' : CovidState)
    (h : schedule_covid_updates spec nm rep now st = Except.ok s') :
    s' = st ∨
      (regLookup st.scheduled_updates nm = none ∧ ∃ ttu ut,
        covidParseInterval now spec = Except.ok (some (ttu, ut)) ∧
        s' = { st with queue := st.queue ++ [(ttu, nm)],
                       scheduled_updates :=
                         regInsert st.scheduled_updates nm ⟨ut, rep⟩ }) := by
  cases hp : covidParseInterval now spec with
  | error e => simp only [schedule_covid_updates, hp] at h; cases h
  | ok o =>
      cases o with
      | none =>
          simp only [schedule_covid_updates, hp] at h
          left; exact (Except.ok.inj h).symm
      | some p =>
          obtain ⟨ttu, ut⟩ := p
          simp only [schedule_covid_updates, hp] at h
          by_cases hl : regLookup st.scheduled_updates nm = none
          · rw [if_pos hl] at h
            right
            exact ⟨hl, ttu, ut, rfl, (Except.ok.inj h).symm⟩
          · rw [if_neg hl] at h
            left; exact (Except.ok.inj h).symm

theorem schedule_covid_updates_register (spec : IntervalSpec) (nm : String) (rep : Bool)
    (now ttu ut : Int) (st : CovidState)
    (hp : covidParseInterval now spec = Except.ok (some (ttu, ut)))
    (hl : regLookup st.scheduled_updates nm = none) :
    schedule_covid_updates spec nm rep now st =
      Except.ok { st with queue := st.queue ++ [(ttu, nm)],
                          scheduled_updates :=
                            regInsert st.scheduled_updates nm ⟨ut, rep⟩ } := by
  simp only [schedule_covid_updates, hp]
  rw [if_pos hl]

theorem schedule_covid_updates_ok (spec : IntervalSpec) (nm : String) (rep : Bool)
    (now : Int) (st : CovidState) (o : Option (Int × Int))
    (hp : covidParseInterval now spec = Except.ok o) :
    ∃ s', schedule_covid_updates spec nm rep now st = Except.ok s' := by
  cases o with
  | none => exact ⟨st, by simp only [schedule_covid_updates, hp]⟩
  | some p =>
      obtain ⟨ttu, ut⟩ := p
      simp only [schedule_covid_updates, hp]
      by_cases hl : regLookup st.scheduled_updates nm = none
      · rw [if_pos hl]; exact ⟨_, rfl⟩
      · rw [if_neg hl]; exact ⟨st, rfl⟩

theorem schedule_covid_updates_preserves (spec : IntervalSpec) (nm : String) (rep : Bool)
    (now : Int) (st s' : CovidState)
    (h : schedule_covid_updates spec nm rep now st = Except.ok s') :
    s'.covid_data = st.covid_data ∧ s'.national_covid_data = st.national_covid_data ∧
      ∀ m, m ≠ nm → regLookup s'.scheduled_updates m = regLookup st.scheduled_updates m := by
  rcases schedule_covid_updates_cases spec nm rep now st s' h with he | ⟨hl, ttu, ut, hp, he⟩
  · subst he; exact ⟨rfl, rfl, fun m _ => rfl⟩
  · subst he
    exact ⟨rfl, rfl, fun m hm => regInsert_lookup_ne _ _ _ _ hm⟩

theorem covid_API_request_spec (o : Except Unit (List CovidRecord)) (now : Int)
    (st : CovidState) :
    ∃ resp s', covid_API_request o now st = Except.ok (resp, s') ∧
      snapTruthy resp = true ∧
      s'.covid_data = st.covid_data ∧ s'.national_covid_data = st.national_covid_data ∧
      (∀ m, m ≠ "API Retry" →
        regLookup s'.scheduled_updates m = regLookup st.scheduled_updates m) ∧
      (o = Except.error () → resp = SnapDict.dataDict none) := by
  cases o with
  | ok rows =>
      refine ⟨SnapDict.dataDict (some rows), st, rfl, rfl, rfl, rfl, fun _ _ => rfl, ?_⟩
      intro h; cases h
  | error u =>
      cases u
      obtain ⟨s', hs⟩ := schedule_covid_updates_ok (IntervalSpec.int 30) "API Retry" false
        now st _ (covidParseInterval_int now 30)
      obtain ⟨hd, hn, hreg⟩ := schedule_covid_updates_preserves _ _ _ _ _ _ hs
      refine ⟨SnapDict.dataDict none, s', ?_, rfl, hd, hn, hreg, fun _ => rfl⟩
      simp only [covid_API_request, hs]

/-! ## Behaviour lemmas for the news scheduling module -/

theorem newsParseInterval_int (now n : Int) :
    newsParseInterval now (IntervalSpec.int n) =
      Except.ok (some (|n| * usPerSecond, now + n * usPerSecond)) := rfl

theorem newsParseInterval_dt_future (now t : Int) (h : ¬ t < now) :
    newsParseInterval now (IntervalSpec.dt t) = Except.ok (some (t - now, t)) := by
  simp [newsParseInterval, h]

theorem schedule_news_updates_cases (spec : IntervalSpec) (nm : String) (rep : Bool)
    (now : Int) (st s' : NewsState)
    (h : schedule_news_updates spec nm rep now st = Except.ok s') :
    s' = st ∨
      (regLookup st.scheduled_updates nm = none ∧ ∃ ttu ut,
        newsParseInterval now spec = Except.ok (some (ttu, ut)) ∧
        s' = { st with queue := st.queue ++ [(ttu, nm)],
                       scheduled_updates :=
                         regInsert st.scheduled_updates nm ⟨ut, rep⟩ }) := by
  cases hp : newsParseInterval now spec with
  | error e => simp only [schedule_news_updates, hp] at h; cases h
  | ok o =>
      cases o with
      | none =>
          simp only [schedule_news_updates, hp] at h
          left; exact (Except.ok.inj h).symm
      | some p =>
          obtain ⟨ttu, ut⟩ := p
          simp only [schedule_news_updates, hp] at h
          by_cases hl : regLookup st.scheduled_updates nm = none
          · rw [if_pos hl] at h
            right
            exact ⟨hl, ttu, ut, rfl, (Except.ok.inj h).symm⟩
          · rw [if_neg hl] at h
            left; exact (Except.ok.inj h).symm

theorem schedule_news_updates_register (spec : IntervalSpec) (nm : String) (rep : Bool)
    (now ttu ut : Int) (st : NewsState)
    (hp : newsParseInterval now spec = Except.ok (some (ttu, ut)))
    (hl : regLookup st.scheduled_updates nm = none) :
    schedule_news_updates spec nm rep now st =
      Except.ok { st with queue := st.queue ++ [(ttu, nm)],
                          scheduled_updates :=
                            regInsert st.scheduled_updates nm ⟨ut, rep⟩ } := by
  simp only [schedule_news_updates, hp]
  rw [if_pos hl]

theorem schedule_news_updates_ok (spec : IntervalSpec) (nm : String) (rep : Bool)
    (now : Int) (st : NewsState) (o : Option (Int × Int))
    (hp : newsParseInterval now spec = Except.ok o) :
    ∃ s', schedule_news_updates spec nm rep now st = Except.ok s' := by
  cases o with
  | none => exact ⟨st, by simp only [schedule_news_updates, hp]⟩
  | some p =>
      obtain ⟨ttu, ut⟩ := p
      simp only [schedule_news_updates, hp]
      by_cases hl : regLookup st.scheduled_updates nm = none
      · rw [if_pos hl]; exact ⟨_, rfl⟩
      · rw [if_neg hl]; exact ⟨st, rfl⟩

theorem schedule_news_updates_preserves (spec : IntervalSpec) (nm : String) (rep : Bool)
    (now : Int) (st s' : NewsState)
    (h : schedule_news_updates spec nm rep now st = Except.ok s') :
    s'.news = st.news ∧ s'.formatted_news = st.formatted_news ∧
      s'.removed_articles = st.removed_articles ∧
      ∀ m, m ≠ nm → regLookup s'.scheduled_updates m = regLookup st.scheduled_updates m := by
  rcases schedule_news_updates_cases spec nm rep now st s' h with he | ⟨hl, ttu, ut, hp, he⟩
  · subst he; exact ⟨rfl, rfl, rfl, fun m _ => rfl⟩
  · subst he
    exact ⟨rfl, rfl, rfl, fun m hm => regInsert_lookup_ne _ _ _ _ hm⟩

theorem news_API_request_spec (o : Except Unit NewsResp) (now : Int) (st : NewsState) :
    ∃ resp s', news_API_request o now st = Except.ok (resp, s') ∧
      s'.news = st.news ∧ s'.formatted_news = st.formatted_news ∧
      s'.removed_articles = st.removed_articles ∧
      (∀ m, m ≠ "API Retry" →
        regLookup s'.scheduled_updates m = regLookup st.scheduled_updates m) ∧
      (o = Except.error () → resp = none) ∧
      (∀ r, o = Except.ok r → resp = some r) := by
  cases o with
  | ok r =>
      refine ⟨some r, st, rfl, rfl, rfl, rfl, fun _ _ => rfl, ?_, ?_⟩
      · intro h; cases h
      · intro r' h; cases h; rfl
  | error u =>
      cases u
      obtain ⟨s', hs⟩ := schedule_news_updates_ok (IntervalSpec.int 30) "API Retry" false
        now st _ (newsParseInterval_int now 30)
      obtain ⟨hn, hf, hr, hreg⟩ := schedule_news_updates_preserves _ _ _ _ _ _ hs
      refine ⟨none, s', ?_, hn, hf, hr, hreg, fun _ => rfl, ?_⟩
      · simp only [news_API_request, hs]
      · intro r' h; cases h

theorem update_news_spec (o : Except Unit NewsResp) (now : Int) (st : NewsState) :
    ∃ s', update_news o now st = Except.ok s' ∧
      s'.removed_articles = st.removed_articles ∧
      (∀ m, m ≠ "API Retry" →
        regLookup s'.scheduled_updates m = regLookup st.scheduled_updates m) ∧
      (o = Except.error () → s'.news = []) ∧
      (∀ r, o = Except.ok r → r.status ≠ "error" →
        s'.news = r.articles.filter
          (fun a => decide (a.title ∉ st.removed_articles))) := by
  obtain ⟨resp, s1, h1, hn, hf, hr, hreg, herr, hok⟩ := news_API_request_spec o now st
  cases o with
  | error u =>
      cases u
      have hresp : resp = none := herr rfl
      subst hresp
      refine ⟨{ s1 with news := [] }, ?_, hr, hreg, fun _ => rfl, ?_⟩
      · simp only [update_news, h1]
      · intro r h; cases h
  | ok r =>
      have hresp : resp = some r := hok r rfl
      subst hresp
      by_cases hstat : r.status = "error"
      · refine ⟨{ s1 with news := [] }, ?_, hr, hreg, ?_, ?_⟩
        · simp only [update_news, h1]
          rw [if_pos hstat]
        · intro h; cases h
        · intro r' h hs; cases h; exact absurd hstat hs
      · refine ⟨{ s1 with
            news := r.articles.filter (fun a => decide (a.title ∉ s1.removed_articles)),
            formatted_news := news_formatter
              (r.articles.filter (fun a => decide (a.title ∉ s1.removed_articles))) },
            ?_, hr, hreg, ?_, ?_⟩
        · simp only [update_news, h1]
          rw [if_neg hstat]
        · intro h; cases h
        · intro r' h hs
          cases h
          simp only [hr]

theorem covidParseInterval_dt_ok (now t : Int) :
    ∃ p, covidParseInterval now (IntervalSpec.dt t) = Except.ok (some p) := by
  unfold covidParseInterval
  exact ⟨_, rfl⟩

theorem newsParseInterval_dt_ok (now t : Int) :
    ∃ p, newsParseInterval now (IntervalSpec.dt t) = Except.ok (some p) := by
  unfold newsParseInterval
  exact ⟨_, rfl⟩

/-! ## Claim C1 -/

/-- C1 (counterexample): the claim "after `sch_update_covid_data` runs with a
failed `covid_API_request`, the `covid_data` and `national_covid_data`
snapshots equal their values before the call" is false at a concrete state:
the failed fetch returns the truthy sentinel dict `\x7b"data": None\x7d`, which the
`if api_response:` guard accepts and which replaces the previous snapshot. -/
theorem C1_counterexample :
    sch_update_covid_data 0 "u" false (Except.error ()) (Except.error ()) 0
        ⟨SnapDict.dataDict (some [[("date", "d")]]), SnapDict.dataDict (some []),
         [("u", ⟨0, false⟩)], []⟩ =
      Except.ok ⟨SnapDict.dataDict none, SnapDict.dataDict none,
         [("API Retry", ⟨30000000, false⟩)], [(30000000, "API Retry")]⟩ ∧
    SnapDict.dataDict none ≠ SnapDict.dataDict (some [[("date", "d")]]) :=
  ⟨rfl, by decide⟩

/-- C1 (amended): after `sch_update_covid_data` runs with failed fetches in
both requests, the snapshots are not kept but replaced by the sentinel
`\x7b"data": None\x7d` (which the dashboard renders as N/A); after `update_news`
runs with a failed `news_API_request`, the news list is not kept but cleared
to the empty list. -/
theorem C1_amended (t : Int) (update_name : String) (rep : Bool) (now : Int)
    (stC : CovidState) (stN : NewsState)
    (hC : (regLookup stC.scheduled_updates update_name).isSome = true) :
    (∃ s', sch_update_covid_data t update_name rep (Except.error ()) (Except.error ())
        now stC = Except.ok s' ∧
      s'.covid_data = SnapDict.dataDict none ∧
      s'.national_covid_data = SnapDict.dataDict none) ∧
    (∃ s', update_news (Except.error ()) now stN = Except.ok s' ∧ s'.news = []) := by
  constructor
  · have hdel : pyDel stC.scheduled_updates update_name =
        Except.ok (regErase stC.scheduled_updates update_name) := by
      unfold pyDel; rw [if_pos hC]
    obtain ⟨r1, s2, h2, _, _, _, _, hv1⟩ :=
      covid_API_request_spec (Except.error ()) now
        { stC with scheduled_updates := regErase stC.scheduled_updates update_name }
    obtain ⟨r2, s3, h3, _, _, _, _, hv2⟩ := covid_API_request_spec (Except.error ()) now s2
    have hr1 : r1 = SnapDict.dataDict none := hv1 rfl
    have hr2 : r2 = SnapDict.dataDict none := hv2 rfl
    subst hr1; subst hr2
    simp only [sch_update_covid_data, hdel, h2, h3, snapTruthy, if_true]
    by_cases hrep : rep = true
    · rw [if_pos hrep]
      obtain ⟨p, hp⟩ := covidParseInterval_dt_ok now (t + usPerDay)
      obtain ⟨s6, h6⟩ := schedule_covid_updates_ok (IntervalSpec.dt (t + usPerDay))
        update_name rep now _ _ hp
      obtain ⟨hd6, hn6, _⟩ := schedule_covid_updates_preserves _ _ _ _ _ _ h6
      exact ⟨s6, h6, by simpa using hd6, by simpa using hn6⟩
    · rw [if_neg hrep]
      exact ⟨_, rfl, rfl, rfl⟩
  · obtain ⟨s', h, _, _, hclr, _⟩ := update_news_spec (Except.error ()) now stN
    exact ⟨s', h, hclr rfl⟩

/-- Witness for C1 (amended) at a concrete state. -/
theorem C1_amended_witness :
    (∃ s', sch_update_covid_data 0 "u" false (Except.error ()) (Except.error ()) 0
        ⟨SnapDict.dataDict (some [[("date", "d")]]), SnapDict.dataDict (some []),
         [("u", ⟨0, false⟩)], []⟩ = Except.ok s' ∧
      s'.covid_data = SnapDict.dataDict none ∧
      s'.national_covid_data = SnapDict.dataDict none) ∧
    (∃ s', update_news (Except.error ()) 0 ⟨[⟨"a", "u", "c"⟩], [], [], [], []⟩ =
        Except.ok s' ∧ s'.news = []) :=
  C1_amended 0 "u" false 0 _ _ (by decide)

/-! ## Claims C2 and C3 -/

/-- C2 (code bug): scheduling the valid wall-clock string "12:34" through
`schedule_news_updates` raises `ValueError` instead of scheduling: the news
module's HH:MM pattern `[0-9]\x7b2\x7d:[0-9]\x7b\x7d2` never matches a valid time (the
malformed `\x7b\x7d` is literal), so the string falls into the digit-prefix branch
and `int("12:34")` raises.  The repository's own test
(tests/test_news_data_handling.py, "test for HH:MM format") asserts that this
call schedules without raising. -/
theorem C2_news_valid_hhmm_raises :
    schedule_news_updates (IntervalSpec.str "12:34") "HH:MM" false 0
        ⟨[], [], [], [], []⟩ =
      Except.error (PyError.valueError "12:34") := rfl

/-- C3 (code bug): the malformed interval spec "54:43" (not a valid HH:MM
time, not pure digits) makes `schedule_news_updates` raise `ValueError` from
`int("54:43")` instead of aborting quietly: the digit-prefix pattern `[0-9]+`
matches the leading "54".  The repository's own test
(tests/test_news_data_handling.py, "test for bad HH:MM format") asserts that
this call returns without raising and leaves the queue unchanged. -/
theorem C3_news_malformed_spec_raises :
    schedule_news_updates (IntervalSpec.str "54:43") "bad_HHMM" false 0
        ⟨[], [], [], [], []⟩ =
      Except.error (PyError.valueError "54:43") := rfl

/-! ## Claim C4 -/

/-- C4 (counterexample): scheduling with -19 and with 19 at the same clock
instant records different `update_time` values in the registry (now - 19s
versus now + 19s): the delay uses `abs(update_interval)` but the recorded
`update_time` is `now + timedelta(seconds=update_interval)` with the signed
value. -/
theorem C4_counterexample :
    (schedule_covid_updates (IntervalSpec.int (-19)) "n" false 0
        ⟨SnapDict.emptyDict, SnapDict.emptyDict, [], []⟩ =
      Except.ok ⟨SnapDict.emptyDict, SnapDict.emptyDict,
        [("n", ⟨-19000000, false⟩)], [(19000000, "n")]⟩) ∧
    (schedule_covid_updates (IntervalSpec.int 19) "n" false 0
        ⟨SnapDict.emptyDict, SnapDict.emptyDict, [], []⟩ =
      Except.ok ⟨SnapDict.emptyDict, SnapDict.emptyDict,
        [("n", ⟨19000000, false⟩)], [(19000000, "n")]⟩) ∧
    UpdateEntry.mk (-19000000) false ≠ UpdateEntry.mk 19000000 false :=
  ⟨rfl, rfl, by decide⟩

/-- C4 (amended): for every integer delay n, scheduling with n enters the
scheduler event with the same delay (|n| seconds) as scheduling with -n at the
same clock instant, but the registry entry's recorded `update_time` is
`now + n` seconds — for negative n a time in the past, differing from the
positive call's recorded time; in both domains. -/
theorem C4_amended (n now : Int) (nm : String) (rep : Bool)
    (stC : CovidState) (stN : NewsState)
    (hC : regLookup stC.scheduled_updates nm = none)
    (hN : regLookup stN.scheduled_updates nm = none) :
    (∃ s₁ s₂, schedule_covid_updates (IntervalSpec.int n) nm rep now stC = Except.ok s₁ ∧
       schedule_covid_updates (IntervalSpec.int (-n)) nm rep now stC = Except.ok s₂ ∧
       s₁.queue = s₂.queue ∧
       s₁.queue = stC.queue ++ [(|n| * usPerSecond, nm)] ∧
       regLookup s₁.scheduled_updates nm = some ⟨now + n * usPerSecond, rep⟩ ∧
       regLookup s₂.scheduled_updates nm = some ⟨now - n * usPerSecond, rep⟩) ∧
    (∃ s₁ s₂, schedule_news_updates (IntervalSpec.int n) nm rep now stN = Except.ok s₁ ∧
       schedule_news_updates (IntervalSpec.int (-n)) nm rep now stN = Except.ok s₂ ∧
       s₁.queue = s₂.queue ∧
       s₁.queue = stN.queue ++ [(|n| * usPerSecond, nm)] ∧
       regLookup s₁.scheduled_updates nm = some ⟨now + n * usPerSecond, rep⟩ ∧
       regLookup s₂.scheduled_updates nm = some ⟨now - n * usPerSecond, rep⟩) := by
  constructor
  · refine ⟨_, _,
      schedule_covid_updates_register (IntervalSpec.int n) nm rep now
        (|n| * usPerSecond) (now + n * usPerSecond) stC (covidParseInterval_int now n) hC,
      schedule_covid_updates_register (IntervalSpec.int (-n)) nm rep now
        (|(-n)| * usPerSecond) (now + (-n) * usPerSecond) stC
        (covidParseInterval_int now (-n)) hC, ?_, rfl, ?_, ?_⟩
    · simp [abs_neg]
    · exact regInsert_lookup_self _ _ _ hC
    · have := regInsert_lookup_self stC.scheduled_updates nm
        ⟨now + (-n) * usPerSecond, rep⟩ hC
      simpa [sub_eq_add_neg, neg_mul] using this
  · refine ⟨_, _,
      schedule_news_updates_register (IntervalSpec.int n) nm rep now
        (|n| * usPerSecond) (now + n * usPerSecond) stN (newsParseInterval_int now n) hN,
      schedule_news_updates_register (IntervalSpec.int (-n)) nm rep now
        (|(-n)| * usPerSecond) (now + (-n) * usPerSecond) stN
        (newsParseInterval_int now (-n)) hN, ?_, rfl, ?_, ?_⟩
    · simp [abs_neg]
    · exact regInsert_lookup_self _ _ _ hN
    · have := regInsert_lookup_self stN.scheduled_updates nm
        ⟨now + (-n) * usPerSecond, rep⟩ hN
      simpa [sub_eq_add_neg, neg_mul] using this

/-- Witness for C4 (amended) at n = -19, now = 0, on empty registries. -/
theorem C4_amended_witness :
    (∃ s₁ s₂, schedule_covid_updates (IntervalSpec.int (-19)) "n" false 0
        ⟨SnapDict.emptyDict, SnapDict.emptyDict, [], []⟩ = Except.ok s₁ ∧
       schedule_covid_updates (IntervalSpec.int (-(-19))) "n" false 0
        ⟨SnapDict.emptyDict, SnapDict.emptyDict, [], []⟩ = Except.ok s₂ ∧
       s₁.queue = s₂.queue ∧
       s₁.queue = ([] : SchedQueue) ++ [(|(-19 : Int)| * usPerSecond, "n")] ∧
       regLookup s₁.scheduled_updates "n" = some ⟨0 + (-19) * usPerSecond, false⟩ ∧
       regLookup s₂.scheduled_updates "n" = some ⟨0 - (-19) * usPerSecond, false⟩) ∧
    (∃ s₁ s₂, schedule_news_updates (IntervalSpec.int (-19)) "n" false 0
        ⟨[], [], [], [], []⟩ = Except.ok s₁ ∧
       schedule_news_updates (IntervalSpec.int (-(-19))) "n" false 0
        ⟨[], [], [], [], []⟩ = Except.ok s₂ ∧
       s₁.queue = s₂.queue ∧
       s₁.queue = ([] : SchedQueue) ++ [(|(-19 : Int)| * usPerSecond, "n")] ∧
       regLookup s₁.scheduled_updates "n" = some ⟨0 + (-19) * usPerSecond, false⟩ ∧
       regLookup s₂.scheduled_updates "n" = some ⟨0 - (-19) * usPerSecond, false⟩) :=
  C4_amended (-19) 0 "n" false ⟨SnapDict.emptyDict, SnapDict.emptyDict, [], []⟩
    ⟨[], [], [], [], []⟩ rfl rfl

/-! ## Claim C5 -/

/-- C5: after a repeating update's callback fires (`sch_update_covid_data` /
`sch_update_news`), the registry again contains an entry under the same name
whose recorded fire time is exactly 24 hours after the previous entry's
scheduled fire time (the callback argument, advanced by
`timedelta(days=1)` — not "now + 24h"); moreover the old entry was removed
from the registry before the domain refresh ran: by definition both callbacks
apply the refresh to the state whose registry is
`regErase st.scheduled_updates update_name`, in which the name no longer
resolves (last two conjuncts).  Hypotheses: the entry is present and
consistent with the callback argument, the name is not the fetch-retry
sentinel "API Retry", and the advanced fire time is not in the past. -/
theorem C5_repeat_advances_24h (t : Int) (update_name : String) (now : Int)
    (stC : CovidState) (stN : NewsState)
    (oL oN : Except Unit (List CovidRecord)) (oNews : Except Unit NewsResp)
    (hC : regLookup stC.scheduled_updates update_name = some ⟨t, true⟩)
    (hN : regLookup stN.scheduled_updates update_name = some ⟨t, true⟩)
    (hname : update_name ≠ "API Retry")
    (hfut : ¬ t + usPerDay < now) :
    (∃ s', sch_update_covid_data t update_name true oL oN now stC = Except.ok s' ∧
       regLookup s'.scheduled_updates update_name = some ⟨t + usPerDay, true⟩) ∧
    (∃ s', sch_update_news t update_name true oNews now stN = Except.ok s' ∧
       regLookup s'.scheduled_updates update_name = some ⟨t + usPerDay, true⟩) ∧
    regLookup (regErase stC.scheduled_updates update_name) update_name = none ∧
    regLookup (regErase stN.scheduled_updates update_name) update_name = none := by
  have hpC : covidParseInterval now (IntervalSpec.dt (t + usPerDay)) =
      Except.ok (some (t + usPerDay - now, t + usPerDay)) :=
    covidParseInterval_dt_future now _ hfut
  have hpN : newsParseInterval now (IntervalSpec.dt (t + usPerDay)) =
      Except.ok (some (t + usPerDay - now, t + usPerDay)) :=
    newsParseInterval_dt_future now _ hfut
  refine ⟨?_, ?_, regErase_lookup_self _ _, regErase_lookup_self _ _⟩
  · have hdel : pyDel stC.scheduled_updates update_name =
        Except.ok (regErase stC.scheduled_updates update_name) := by
      simp [pyDel, hC]
    obtain ⟨r1, s2, h2, htr1, _, _, hreg2, _⟩ :=
      covid_API_request_spec oL now
        { stC with scheduled_updates := regErase stC.scheduled_updates update_name }
    obtain ⟨r2, s3, h3, htr2, _, _, hreg3, _⟩ := covid_API_request_spec oN now s2
    have hl3 : regLookup s3.scheduled_updates update_name = none := by
      rw [hreg3 _ hname, hreg2 _ hname]
      exact regErase_lookup_self _ _
    simp only [sch_update_covid_data, hdel, h2, h3, htr1, htr2, eq_self_iff_true,
      if_true]
    exact ⟨_, schedule_covid_updates_register _ _ _ _ _ _ _ hpC hl3,
      regInsert_lookup_self _ _ _ hl3⟩
  · have hdel : pyDel stN.scheduled_updates update_name =
        Except.ok (regErase stN.scheduled_updates update_name) := by
      simp [pyDel, hN]
    obtain ⟨s2, h2, _, hreg2, _, _⟩ :=
      update_news_spec oNews now
        { stN with scheduled_updates := regErase stN.scheduled_updates update_name }
    have hl2 : regLookup s2.scheduled_updates update_name = none := by
      rw [hreg2 _ hname]
      exact regErase_lookup_self _ _
    simp only [sch_update_news, hdel, h2, eq_self_iff_true, if_true]
    exact ⟨_, schedule_news_updates_register _ _ _ _ _ _ _ hpN hl2,
      regInsert_lookup_self _ _ _ hl2⟩

/-- Witness for C5 at a concrete repeating entry firing exactly on time. -/
theorem C5_repeat_advances_24h_witness :
    (∃ s', sch_update_covid_data 0 "daily" true (Except.ok []) (Except.ok []) 0
        ⟨SnapDict.emptyDict, SnapDict.emptyDict, [("daily", ⟨0, true⟩)], []⟩ =
        Except.ok s' ∧
       regLookup s'.scheduled_updates "daily" = some ⟨0 + usPerDay, true⟩) ∧
    (∃ s', sch_update_news 0 "daily" true (Except.ok ⟨"ok", []⟩) 0
        ⟨[], [], [], [("daily", ⟨0, true⟩)], []⟩ = Except.ok s' ∧
       regLookup s'.scheduled_updates "daily" = some ⟨0 + usPerDay, true⟩) ∧
    regLookup (regErase [("daily", UpdateEntry.mk 0 true)] "daily") "daily" = none ∧
    regLookup (regErase [("daily", UpdateEntry.mk 0 true)] "daily") "daily" = none :=
  C5_repeat_advances_24h 0 "daily" 0
    ⟨SnapDict.emptyDict, SnapDict.emptyDict, [("daily", ⟨0, true⟩)], []⟩
    ⟨[], [], [], [("daily", ⟨0, true⟩)], []⟩
    (Except.ok []) (Except.ok []) (Except.ok ⟨"ok", []⟩)
    rfl rfl (by decide) (by decide)

/-! ## Claim C6 -/

theorem eraseP_title_not_mem (t : String) (l : List Article)
    (h : (l.map Article.title).Nodup) :
    t ∉ (l.eraseP (fun a => a.title == t)).map Article.title := by
  induction l with
  | nil => simp
  | cons a rest ih =>
      simp only [List.map_cons, List.nodup_cons] at h
      obtain ⟨hna, hnd⟩ := h
      by_cases hat : a.title = t
      · rw [List.eraseP_cons_of_pos]
        · rw [← hat]; exact hna
        · simp [hat]
      · rw [List.eraseP_cons_of_neg]
        · simp only [List.map_cons, List.mem_cons]
          rintro (he | hm)
          · exact hat he.symm
          · exact ih hnd hm
        · simp [hat]

/-- C6 (counterexample): when the live list holds two articles with the same
title, `add_removed_article` deletes only the first occurrence
(`article_titles.index` / `del news[i]`), so the title is still present in
the live list immediately afterwards. -/
theorem C6_counterexample :
    (add_removed_article "t"
        ⟨[⟨"t", "u1", "c1"⟩, ⟨"t", "u2", "c2"⟩], [], [], [], []⟩).news =
      [⟨"t", "u2", "c2"⟩] ∧
    "t" ∈ (add_removed_article "t"
        ⟨[⟨"t", "u1", "c1"⟩, ⟨"t", "u2", "c2"⟩], [], [], [], []⟩).news.map
        Article.title :=
  ⟨rfl, by decide⟩

/-- C6 (amended): `add_removed_article t` records `t` in the permanent
removed-article set, deletes the first live article titled `t` (so `t` is
absent from the live list whenever titles are pairwise distinct), and always
recomputes the formatted display list from the new live list; every
subsequent successful `update_news` fetch filters `t` out, and the removed
set is preserved by every news-module operation, so `t` never reappears. -/
theorem C6_amended (t : String) (st : NewsState) :
    t ∈ (add_removed_article t st).removed_articles ∧
    ((st.news.map Article.title).Nodup →
      t ∉ (add_removed_article t st).news.map Article.title) ∧
    (add_removed_article t st).formatted_news =
      news_formatter (add_removed_article t st).news ∧
    (∀ (s s' : NewsState) (r : NewsResp) (now : Int), t ∈ s.removed_articles →
       update_news (Except.ok r) now s = Except.ok s' → r.status ≠ "error" →
       t ∉ s'.news.map Article.title) ∧
    (∀ (s s' : NewsState) (o : Except Unit NewsResp) (now : Int),
       update_news o now s = Except.ok s' →
       t ∈ s.removed_articles → t ∈ s'.removed_articles) ∧
    (∀ (s : NewsState) (u : String), t ∈ s.removed_articles →
       t ∈ (add_removed_article u s).removed_articles) ∧
    (∀ (s s' : NewsState) (spec : IntervalSpec) (nm : String) (rep : Bool) (now : Int),
       schedule_news_updates spec nm rep now s = Except.ok s' →
       t ∈ s.removed_articles → t ∈ s'.removed_articles) ∧
    (∀ (s s' : NewsState) (ut : Int) (nm : String) (rep : Bool)
       (o : Except Unit NewsResp) (now : Int),
       sch_update_news ut nm rep o now s = Except.ok s' →
       t ∈ s.removed_articles → t ∈ s'.removed_articles) := by
  have hupd_removed : ∀ (s s' : NewsState) (o : Except Unit NewsResp) (now : Int),
      update_news o now s = Except.ok s' → s'.removed_articles = s.removed_articles := by
    intro s s' o now h
    obtain ⟨s'', h'', hr, _, _, _⟩ := update_news_spec o now s
    rw [h] at h''
    cases Except.ok.inj h''
    exact hr
  refine ⟨?_, ?_, ?_, ?_, ?_, ?_, ?_, ?_⟩
  · simp [add_removed_article]
  · intro hnd
    simp only [add_removed_article]
    by_cases hmem : t ∈ st.news.map Article.title
    · rw [if_pos hmem]
      exact eraseP_title_not_mem t st.news hnd
    · rw [if_neg hmem]
      exact hmem
  · rfl
  · intro s s' r now hrem h hstat
    obtain ⟨s'', h'', _, _, _, hfil⟩ := update_news_spec (Except.ok r) now s
    rw [h] at h''
    cases Except.ok.inj h''
    rw [hfil r rfl hstat]
    intro hmem
    simp only [List.mem_map] at hmem
    obtain ⟨a, hain, hat⟩ := hmem
    have := (List.mem_filter.mp hain).2
    have hnot : a.title ∉ s.removed_articles := of_decide_eq_true this
    rw [hat] at hnot
    exact hnot hrem
  · intro s s' o now h hrem
    rw [hupd_removed s s' o now h]
    exact hrem
  · intro s u hrem
    simp only [add_removed_article]
    exact List.mem_append_left _ hrem
  · intro s s' spec nm rep now h hrem
    obtain ⟨_, _, hr, _⟩ := schedule_news_updates_preserves spec nm rep now s s' h
    rw [hr]; exact hrem
  · intro s s' ut nm rep o now h hrem
    cases hd : pyDel s.scheduled_updates nm with
    | error e => simp only [sch_update_news, hd] at h; cases h
    | ok reg1 =>
        simp only [sch_update_news, hd] at h
        cases hu : update_news o now { s with scheduled_updates := reg1 } with
        | error e => rw [hu] at h; cases h
        | ok s2 =>
            simp only [hu] at h
            have hs2 : s2.removed_articles = s.removed_articles := by
              have hx := hupd_removed _ _ _ _ hu
              simpa using hx
            by_cases hrep : rep = true
            · rw [if_pos hrep] at h
              obtain ⟨_, _, hr, _⟩ :=
                schedule_news_updates_preserves _ _ _ _ _ _ h
              rw [hr, hs2]; exact hrem
            · rw [if_neg hrep] at h
              cases Except.ok.inj h
              rw [hs2]; exact hrem

/-- Witness for C6 (amended) at a concrete state with distinct titles. -/
theorem C6_amended_witness :
    "t" ∈ (add_removed_article "t"
        ⟨[⟨"t", "u1", "c1"⟩, ⟨"s", "u2", "c2"⟩], [], [], [], []⟩).removed_articles ∧
    "t" ∉ (add_removed_article "t"
        ⟨[⟨"t", "u1", "c1"⟩, ⟨"s", "u2", "c2"⟩], [], [], [], []⟩).news.map
        Article.title ∧
    (∃ s', update_news (Except.ok ⟨"ok", [⟨"t", "u1", "c1"⟩]⟩) 0
        (add_removed_article "t"
          ⟨[⟨"t", "u1", "c1"⟩, ⟨"s", "u2", "c2"⟩], [], [], [], []⟩) = Except.ok s' ∧
      "t" ∉ s'.news.map Article.title) := by
  obtain ⟨h1, h2, _, h4, _, _, _, _⟩ :=
    C6_amended "t" ⟨[⟨"t", "u1", "c1"⟩, ⟨"s", "u2", "c2"⟩], [], [], [], []⟩
  refine ⟨h1, h2 (by decide), ?_⟩
  obtain ⟨s', hu, _, _, _, _⟩ := update_news_spec
    (Except.ok ⟨"ok", [⟨"t", "u1", "c1"⟩]⟩) 0
    (add_removed_article "t" ⟨[⟨"t", "u1", "c1"⟩, ⟨"s", "u2", "c2"⟩], [], [], [], []⟩)
  exact ⟨s', hu, h4 _ s' ⟨"ok", [⟨"t", "u1", "c1"⟩]⟩ 0 h1 hu (by decide)⟩

/-! ## Claims C7 and C10: the collated view -/

/-- The first pass of `collate_update_lists` in closed form. -/
def covidPart (c n : Registry) : MergedView :=
  c.map (fun p => (p.1, ⟨true, (regLookup n p.1).isSome,
    p.2.update_time, p.2.repeat_flag⟩))

/-- The second pass of `collate_update_lists` in closed form: news-registry
entries whose name is not already in the first pass. -/
def newsOnlyPart (c n : Registry) : MergedView :=
  (n.filter (fun q => !(List.lookup q.1 (covidPart c n)).isSome)).map
    (fun q => (q.1, ⟨false, true, q.2.update_time, q.2.repeat_flag⟩))

theorem collate_first_pass (n : Registry) (c : Registry) (init : MergedView) :
    c.foldl (fun acc p =>
      match regLookup n p.1 with
      | some _ => acc ++ [(p.1, ⟨true, true, p.2.update_time, p.2.repeat_flag⟩)]
      | none => acc ++ [(p.1, ⟨true, false, p.2.update_time, p.2.repeat_flag⟩)]) init =
    init ++ covidPart c n := by
  induction c generalizing init with
  | nil => simp [covidPart]
  | cons p rest ih =>
      cases hl : regLookup n p.1 with
      | some e => simp [List.foldl_cons, hl, ih, covidPart]
      | none => simp [List.foldl_cons, hl, ih, covidPart]

theorem collate_second_pass (n : Registry) (init : MergedView)
    (hn : (n.map Prod.fst).Nodup) :
    n.foldl (fun acc q =>
      if (acc.lookup q.1).isSome then acc
      else acc ++ [(q.1, ⟨false, true, q.2.update_time, q.2.repeat_flag⟩)]) init =
    init ++ (n.filter (fun q => !(List.lookup q.1 init).isSome)).map
      (fun q => (q.1, ⟨false, true, q.2.update_time, q.2.repeat_flag⟩)) := by
  induction n generalizing init with
  | nil => simp
  | cons q rest ih =>
      simp only [List.map_cons, List.nodup_cons] at hn
      obtain ⟨hq, hrest⟩ := hn
      simp only [List.foldl_cons]
      cases hl : (List.lookup q.1 init).isSome with
      | true =>
          rw [if_pos rfl, ih init hrest]
          have hfq : (!(List.lookup q.1 init).isSome) = false := by rw [hl]; rfl
          simp [List.filter, hfq]
      | false =>
          rw [if_neg Bool.false_ne_true, ih _ hrest]
          have hfq : (!(List.lookup q.1 init).isSome) = true := by rw [hl]; rfl
          have hcong : rest.filter
              (fun w => !(List.lookup w.1
                (init ++ [(q.1, MergedEntry.mk false true q.2.update_time
                  q.2.repeat_flag)])).isSome) =
              rest.filter (fun w => !(List.lookup w.1 init).isSome) := by
            apply List.filter_congr
            intro w hw
            have hne : w.1 ≠ q.1 := by
              intro he
              exact hq (he ▸ List.mem_map_of_mem Prod.fst hw)
            cases hil : List.lookup w.1 init with
            | some v => rw [lookup_append_some w.1 init _ v hil]
            | none =>
                rw [lookup_append_none w.1 init _ hil]
                have hbk : (w.1 == q.1) = false := by
                  cases hb : (w.1 == q.1) with
                  | true => exact absurd (beq_iff_eq.mp hb) hne
                  | false => rfl
                simp [List.lookup, hbk]
          rw [hcong]
          simp [List.filter, hfq]

theorem collate_update_lists_eq (c n : Registry) (hn : (n.map Prod.fst).Nodup) :
    collate_update_lists c n = covidPart c n ++ newsOnlyPart c n := by
  unfold collate_update_lists
  rw [collate_first_pass n c [], collate_second_pass n _ hn]
  simp [newsOnlyPart]

theorem lookup_map_keyed {β γ : Type} (F : String × β → γ) (l : List (String × β))
    (k : String) (v : β) (h : List.lookup k l = some v) :
    List.lookup k (l.map (fun p => (p.1, F p))) = some (F (k, v)) := by
  induction l with
  | nil => simp [List.lookup] at h
  | cons p rest ih =>
      obtain ⟨a, b⟩ := p
      simp only [List.lookup, List.map_cons] at h ⊢
      cases hk : (k == a) with
      | true =>
          simp only [hk] at h ⊢
          have ha : a = k := (beq_iff_eq.mp hk).symm
          subst ha
          cases h
          rfl
      | false => simp only [hk] at h ⊢; exact ih h

theorem lookup_map_keyed_isSome {β γ : Type} (F : String × β → γ)
    (l : List (String × β)) (k : String) :
    (List.lookup k (l.map (fun p => (p.1, F p)))).isSome =
      (List.lookup k l).isSome := by
  induction l with
  | nil => rfl
  | cons p rest ih =>
      obtain ⟨a, b⟩ := p
      simp only [List.lookup, List.map_cons]
      cases hk : (k == a) with
      | true => simp only [hk]; rfl
      | false => simp only [hk]; exact ih

theorem lookup_map_keyed_none {β γ : Type} (F : String × β → γ)
    (l : List (String × β)) (k : String) (h : List.lookup k l = none) :
    List.lookup k (l.map (fun p => (p.1, F p))) = none := by
  have hs := lookup_map_keyed_isSome F l k
  rw [h] at hs
  cases he : List.lookup k (l.map (fun p => (p.1, F p))) with
  | none => rfl
  | some v => rw [he] at hs; simp at hs

theorem lookup_filter_keyed_isSome {β : Type} (l : List (String × β))
    (Pk : String → Bool) (k : String) :
    (List.lookup k (l.filter (fun p => Pk p.1))).isSome =
      (Pk k && (List.lookup k l).isSome) := by
  induction l with
  | nil => simp
  | cons p rest ih =>
      obtain ⟨a, b⟩ := p
      by_cases hk : k = a
      · subst hk
        cases hp : Pk k with
        | true => simp [List.filter, hp, List.lookup]
        | false => simp [List.filter, hp, ih]
      · have hbk : (k == a) = false := by
          cases hb : (k == a) with
          | true => exact absurd (beq_iff_eq.mp hb) hk
          | false => rfl
        cases hp : Pk a with
        | true => simp [List.filter, hp, List.lookup, hbk, ih]
        | false => simp [List.filter, hp, List.lookup, hbk, ih]

theorem lookup_filter_keyed_of_pos {β : Type} (l : List (String × β))
    (Pk : String → Bool) (k : String) (hp : Pk k = true) :
    List.lookup k (l.filter (fun p => Pk p.1)) = List.lookup k l := by
  induction l with
  | nil => rfl
  | cons p rest ih =>
      obtain ⟨a, b⟩ := p
      by_cases hk : k = a
      · subst hk; simp [List.filter, hp, List.lookup]
      · have hbk : (k == a) = false := by
          cases hb : (k == a) with
          | true => exact absurd (beq_iff_eq.mp hb) hk
          | false => rfl
        cases hpa : Pk a with
        | true => simp [List.filter, hpa, List.lookup, hbk, ih]
        | false => simp [List.filter, hpa, List.lookup, hbk, ih]

theorem covidPart_keys (c n : Registry) :
    (covidPart c n).map Prod.fst = c.map Prod.fst := by
  induction c with
  | nil => rfl
  | cons p rest ih =>
      simp only [covidPart, List.map_cons] at ih ⊢
      rw [ih]

theorem map_keyed_keys {β γ : Type} (F : String × β → γ) (l : List (String × β)) :
    (l.map (fun p => (p.1, F p))).map Prod.fst = l.map Prod.fst := by
  induction l with
  | nil => rfl
  | cons p rest ih => simp only [List.map_cons] at ih ⊢; rw [ih]

theorem newsOnlyPart_keys_nodup (c n : Registry) (hn : (n.map Prod.fst).Nodup) :
    ((newsOnlyPart c n).map Prod.fst).Nodup := by
  unfold newsOnlyPart
  have h1 := map_keyed_keys
    (fun q => (⟨false, true, q.2.update_time, q.2.repeat_flag⟩ : MergedEntry))
    (n.filter (fun q => !(List.lookup q.1 (covidPart c n)).isSome))
  have h2 : ((n.filter (fun q => !(List.lookup q.1 (covidPart c n)).isSome)).map
      (fun q => ((q.1 : String),
        (⟨false, true, q.2.update_time, q.2.repeat_flag⟩ : MergedEntry)))).map
      Prod.fst =
      (n.filter (fun q => !(List.lookup q.1 (covidPart c n)).isSome)).map Prod.fst := by
    simp
  rw [h2]
  exact ((List.filter_sublist n).map Prod.fst).nodup hn

theorem covidPart_lookup_some (c n : Registry) (k : String) (v : UpdateEntry)
    (h : List.lookup k c = some v) :
    List.lookup k (covidPart c n) =
      some ⟨true, (regLookup n k).isSome, v.update_time, v.repeat_flag⟩ := by
  have h1 := lookup_map_keyed
    (fun p => (⟨true, (regLookup n p.1).isSome, p.2.update_time,
      p.2.repeat_flag⟩ : MergedEntry)) c k v h
  simpa [covidPart] using h1

theorem covidPart_lookup_isSome (c n : Registry) (k : String) :
    (List.lookup k (covidPart c n)).isSome = (List.lookup k c).isSome := by
  have h1 := lookup_map_keyed_isSome
    (fun p => (⟨true, (regLookup n p.1).isSome, p.2.update_time,
      p.2.repeat_flag⟩ : MergedEntry)) c k
  simpa [covidPart] using h1

theorem covidPart_lookup_none (c n : Registry) (k : String)
    (h : List.lookup k c = none) : List.lookup k (covidPart c n) = none := by
  have hs := covidPart_lookup_isSome c n k
  rw [h] at hs
  cases he : List.lookup k (covidPart c n) with
  | none => rfl
  | some v => rw [he] at hs; simp at hs

theorem newsOnlyPart_lookup_isSome (c n : Registry) (k : String) :
    (List.lookup k (newsOnlyPart c n)).isSome =
      ((!(List.lookup k (covidPart c n)).isSome) && (List.lookup k n).isSome) := by
  unfold newsOnlyPart
  have h1 := lookup_map_keyed_isSome
    (fun q => (⟨false, true, q.2.update_time, q.2.repeat_flag⟩ : MergedEntry))
    (n.filter (fun q => !(List.lookup q.1 (covidPart c n)).isSome)) k
  have h2 := lookup_filter_keyed_isSome n
    (fun s => !(List.lookup s (covidPart c n)).isSome) k
  simp only [] at h1 h2
  simpa using h1.trans h2

theorem newsOnlyPart_lookup_some (c n : Registry) (k : String) (w : UpdateEntry)
    (hpk : List.lookup k (covidPart c n) = none) (h : List.lookup k n = some w) :
    List.lookup k (newsOnlyPart c n) =
      some ⟨false, true, w.update_time, w.repeat_flag⟩ := by
  unfold newsOnlyPart
  have hpkb : (!(List.lookup k (covidPart c n)).isSome) = true := by rw [hpk]; rfl
  have h2 := lookup_filter_keyed_of_pos n
    (fun s => !(List.lookup s (covidPart c n)).isSome) k hpkb
  have h3 : List.lookup k
      (n.filter (fun q => !(List.lookup q.1 (covidPart c n)).isSome)) = some w := by
    simpa using h2.trans h
  have h4 := lookup_map_keyed
    (fun q => (⟨false, true, q.2.update_time, q.2.repeat_flag⟩ : MergedEntry))
    (n.filter (fun q => !(List.lookup q.1 (covidPart c n)).isSome)) k w h3
  simpa using h4

theorem newsOnlyPart_lookup_none_of_n_none (c n : Registry) (k : String)
    (h : List.lookup k n = none) : List.lookup k (newsOnlyPart c n) = none := by
  have hs := newsOnlyPart_lookup_isSome c n k
  rw [h] at hs
  cases he : List.lookup k (newsOnlyPart c n) with
  | none => rfl
  | some v => rw [he] at hs; simp at hs

/-- C7: the merged view contains exactly one entry for every name present in
either registry (its key list has no duplicates, and a name resolves in the
merged view iff it resolves in the covid registry or in the news registry),
and each entry's covid/news flags record exactly the memberships of its name
in the two registries — in particular a name present in both yields one entry
with both flags true. -/
theorem C7_collate_invariant (c n : Registry)
    (hc : (c.map Prod.fst).Nodup) (hn : (n.map Prod.fst).Nodup) :
    ((collate_update_lists c n).map Prod.fst).Nodup ∧
    (∀ name, (List.lookup name (collate_update_lists c n)).isSome = true ↔
       ((regLookup c name).isSome = true ∨ (regLookup n name).isSome = true)) ∧
    (∀ name e, List.lookup name (collate_update_lists c n) = some e →
       e.covid = (regLookup c name).isSome ∧ e.news = (regLookup n name).isSome) := by
  rw [collate_update_lists_eq c n hn]
  refine ⟨?_, ?_, ?_⟩
  · rw [List.map_append]
    refine ((covidPart_keys c n).symm ▸ hc).append (newsOnlyPart_keys_nodup c n hn) ?_
    intro x hx hy
    rw [covidPart_keys] at hx
    have hxl : (List.lookup x c).isSome = true :=
      (lookup_isSome_iff_mem_keys x c).mpr hx
    have hyl : (List.lookup x (newsOnlyPart c n)).isSome = true :=
      (lookup_isSome_iff_mem_keys x (newsOnlyPart c n)).mpr hy
    rw [newsOnlyPart_lookup_isSome, covidPart_lookup_isSome, hxl] at hyl
    simp at hyl
  · intro name
    cases hcl : List.lookup name c with
    | some v =>
        have h1 := covidPart_lookup_some c n name v hcl
        rw [lookup_append_some name _ _ _ h1]
        constructor
        · intro _; left; simp [regLookup, hcl]
        · intro _; rfl
    | none =>
        have h0 := covidPart_lookup_none c n name hcl
        rw [lookup_append_none name _ _ h0, newsOnlyPart_lookup_isSome,
          covidPart_lookup_isSome, hcl]
        simp [regLookup, hcl]
  · intro name e h
    cases hcl : List.lookup name c with
    | some v =>
        have h1 := covidPart_lookup_some c n name v hcl
        rw [lookup_append_some name _ _ _ h1] at h
        cases Option.some.inj h
        exact ⟨by simp [regLookup, hcl], rfl⟩
    | none =>
        have h0 := covidPart_lookup_none c n name hcl
        rw [lookup_append_none name _ _ h0] at h
        cases hnl : List.lookup name n with
        | none =>
            rw [newsOnlyPart_lookup_none_of_n_none c n name hnl] at h
            cases h
        | some w =>
            rw [newsOnlyPart_lookup_some c n name w h0 hnl] at h
            cases Option.some.inj h
            exact ⟨by simp [regLookup, hcl], by simp [regLookup, hnl]⟩

/-- Witness for C7 on the spec's collation scenario (registries A / A,B). -/
theorem C7_collate_invariant_witness :
    ((collate_update_lists [("A", ⟨600, false⟩)]
        [("A", ⟨999, true⟩), ("B", ⟨660, true⟩)]).map Prod.fst).Nodup ∧
    ((List.lookup "B" (collate_update_lists [("A", ⟨600, false⟩)]
        [("A", ⟨999, true⟩), ("B", ⟨660, true⟩)])).isSome = true ↔
      ((regLookup [("A", ⟨600, false⟩)] "B").isSome = true ∨
       (regLookup [("A", ⟨999, true⟩), ("B", ⟨660, true⟩)] "B").isSome = true)) := by
  obtain ⟨h1, h2, _⟩ := C7_collate_invariant [("A", ⟨600, false⟩)]
    [("A", ⟨999, true⟩), ("B", ⟨660, true⟩)] (by decide) (by decide)
  exact ⟨h1, h2 "B"⟩

/-- C10: when a name is present in both registries, the merged entry takes its
displayed fire time and repeat flag from the covid registry's entry, whatever
the news registry's entry holds. -/
theorem C10_merge_uses_covid_entry (c n : Registry) (name : String)
    (ce ne : UpdateEntry) (hn : (n.map Prod.fst).Nodup)
    (hcl : regLookup c name = some ce) (hnl : regLookup n name = some ne) :
    List.lookup name (collate_update_lists c n) =
      some ⟨true, true, ce.update_time, ce.repeat_flag⟩ := by
  rw [collate_update_lists_eq c n hn]
  have h1 := covidPart_lookup_some c n name ce hcl
  rw [lookup_append_some name _ _ _ h1, hnl]
  rfl

/-- Witness for C10: same name in both registries, news entry with different
time and repeat values; the merged entry shows the covid entry's values. -/
theorem C10_merge_uses_covid_entry_witness :
    List.lookup "A" (collate_update_lists [("A", ⟨600, false⟩)]
      [("A", ⟨999, true⟩), ("B", ⟨660, true⟩)]) = some ⟨true, true, 600, false⟩ :=
  C10_merge_uses_covid_entry [("A", ⟨600, false⟩)]
    [("A", ⟨999, true⟩), ("B", ⟨660, true⟩)] "A" ⟨600, false⟩ ⟨999, true⟩
    (by decide) rfl rfl

/-! ## Claim C8 -/

theorem isDigit_of_range (c : Char) (bound : Char) (h1 : '0' ≤ c) (h2 : c ≤ bound)
    (hb : bound ≤ '9') : c.isDigit = true := by
  have h3 : c ≤ '9' := le_trans h2 hb
  simp [Char.isDigit]
  exact ⟨h1, h3⟩

theorem isDigit_ne_colon (c : Char) (h : c.isDigit = true) : ¬ c = ':' := by
  intro he; rw [he] at h; exact absurd h (by decide)

theorem isDigit_ne_minus (c : Char) (h : c.isDigit = true) : ¬ c = '-' := by
  intro he; rw [he] at h; exact absurd h (by decide)

theorem pyIntChars_digits_ok (cs : List Char) (hne : cs ≠ [])
    (hd : cs.all Char.isDigit = true) :
    pyIntChars cs = Except.ok ((digitsVal cs : Int)) := by
  cases cs with
  | nil => exact absurd rfl hne
  | cons c rest =>
      have hcd : c.isDigit = true := by
        have := List.all_eq_true.mp hd
        exact this c (List.mem_cons_self c rest)
      simp only [pyIntChars]
      rw [if_neg (isDigit_ne_minus c hcd),
        if_pos (show ((!(c :: rest).isEmpty) && (c :: rest).all Char.isDigit) = true by
          simp [hd])]

theorem covid_tti_ok (now : Int) (s : String) (h : covidHHMMMatch s = true) :
    ∃ p, time_to_update_interval now s = Except.ok p := by
  unfold covidHHMMMatch at h
  unfold time_to_update_interval
  cases hl : s.toList with
  | nil => rw [hl] at h; cases h
  | cons c1 t1 =>
  cases t1 with
  | nil => rw [hl] at h; cases h
  | cons c2 t2 =>
  cases t2 with
  | nil => rw [hl] at h; cases h
  | cons c3 t3 =>
  cases t3 with
  | nil => rw [hl] at h; cases h
  | cons c4 t4 =>
  cases t4 with
  | nil =>
      rw [hl] at h
      simp only [Bool.and_eq_true, decide_eq_true_eq] at h
      obtain ⟨hc2, hd1, ⟨h3a, h3b⟩, hd4⟩ := h
      subst hc2
      have hd3 : c3.isDigit = true := isDigit_of_range c3 '5' h3a h3b (by decide)
      have hs : splitColon [c1, ':', c3, c4] = [[c1], [c3, c4]] := by
        simp [splitColon, isDigit_ne_colon c1 hd1, isDigit_ne_colon c3 hd3,
          isDigit_ne_colon c4 hd4]
      have hpa : pyIntChars [c1] = Except.ok ((digitsVal [c1] : Int)) :=
        pyIntChars_digits_ok [c1] (by simp) (by simp [hd1])
      have hpb : pyIntChars [c3, c4] = Except.ok ((digitsVal [c3, c4] : Int)) :=
        pyIntChars_digits_ok [c3, c4] (by simp) (by simp [hd3, hd4])
      simp only [hs, hpa, hpb]
      exact ⟨_, rfl⟩
  | cons c5 t5 =>
  cases t5 with
  | nil =>
      rw [hl] at h
      simp only [Bool.and_eq_true, Bool.or_eq_true, decide_eq_true_eq] at h
      obtain ⟨hc3, hhour, ⟨h4a, h4b⟩, hd5⟩ := h
      subst hc3
      have hd4 : c4.isDigit = true := isDigit_of_range c4 '5' h4a h4b (by decide)
      have hd1 : c1.isDigit = true := by
        rcases hhour with ⟨h01, _⟩ | ⟨h2eq, _⟩
        · rcases h01 with h0 | h1
          · rw [h0]; decide
          · rw [h1]; decide
        · rw [h2eq]; decide
      have hd2 : c2.isDigit = true := by
        rcases hhour with ⟨_, hdig⟩ | ⟨_, hr1, hr2⟩
        · exact hdig
        · exact isDigit_of_range c2 '3' hr1 hr2 (by decide)
      have hs : splitColon [c1, c2, ':', c4, c5] = [[c1, c2], [c4, c5]] := by
        simp [splitColon, isDigit_ne_colon c1 hd1, isDigit_ne_colon c2 hd2,
          isDigit_ne_colon c4 hd4, isDigit_ne_colon c5 hd5]
      have hpa : pyIntChars [c1, c2] = Except.ok ((digitsVal [c1, c2] : Int)) :=
        pyIntChars_digits_ok [c1, c2] (by simp) (by simp [hd1, hd2])
      have hpb : pyIntChars [c4, c5] = Except.ok ((digitsVal [c4, c5] : Int)) :=
        pyIntChars_digits_ok [c4, c5] (by simp) (by simp [hd4, hd5])
      simp only [hs, hpa, hpb]
      exact ⟨_, rfl⟩
  | cons c6 t6 => rw [hl] at h; cases h

/-- The covid-side interval parse never raises (on the ASCII string model):
every accepted wall-clock string splits into two digit groups, every
digit-string input converts, and the datetime / int branches are total. -/
theorem covidParseInterval_ok (now : Int) (spec : IntervalSpec) :
    ∃ o, covidParseInterval now spec = Except.ok o := by
  cases spec with
  | int n => exact ⟨_, rfl⟩
  | dt t => exact ⟨_, rfl⟩
  | str s =>
      by_cases hm : covidHHMMMatch s = true
      · obtain ⟨p, hp⟩ := covid_tti_ok now s hm
        refine ⟨some p, ?_⟩
        simp only [covidParseInterval]
        rw [if_pos hm]
        simp only [hp]
      · by_cases hd : isDigitsStr s = true
        · have hd' := hd
          unfold isDigitsStr at hd'
          simp only [Bool.and_eq_true] at hd'
          obtain ⟨hne, hall⟩ := hd'
          have hne' : s.toList ≠ [] := by
            intro he; rw [he] at hne; simp at hne
          have hp : pyInt s = Except.ok ((digitsVal s.toList : Int)) :=
            pyIntChars_digits_ok s.toList hne' hall
          refine ⟨some (|(digitsVal s.toList : Int)| * usPerSecond,
            now + (digitsVal s.toList : Int) * usPerSecond), ?_⟩
          simp only [covidParseInterval]
          rw [if_neg hm, if_pos hd]
          simp only [pyInt] at hp
          simp only [pyInt, hp]
        · refine ⟨none, ?_⟩
          simp only [covidParseInterval]
          rw [if_neg hm, if_neg hd]

/-- C8 (counterexample): with "dup" already registered in the news domain, a
second `schedule_news_updates` call for "dup" with the digit-leading malformed
interval "5x" raises `ValueError` from `int("5x")` before the duplicate check
is reached, contradicting "the call does not raise". -/
theorem C8_counterexample :
    schedule_news_updates (IntervalSpec.str "5x") "dup" false 0
        ⟨[], [], [], [("dup", ⟨0, false⟩)], []⟩ =
      Except.error (PyError.valueError "5x") := rfl

/-- C8 (amended): a second schedule call under a name already present performs
no registration — no event is entered, the registry and the whole state are
unchanged — and does not raise; unconditionally so for
`schedule_covid_updates`, and for `schedule_news_updates` provided its
interval parse does not itself raise (the news parser raises ValueError on
digit-leading malformed strings before the duplicate check). -/
theorem C8_amended (spec : IntervalSpec) (nm : String) (rep : Bool) (now : Int)
    (stC : CovidState) (stN : NewsState)
    (hC : (regLookup stC.scheduled_updates nm).isSome = true)
    (hN : (regLookup stN.scheduled_updates nm).isSome = true) :
    schedule_covid_updates spec nm rep now stC = Except.ok stC ∧
    (∀ o, newsParseInterval now spec = Except.ok o →
      schedule_news_updates spec nm rep now stN = Except.ok stN) := by
  have hCne : ¬ regLookup stC.scheduled_updates nm = none := by
    intro he; rw [he] at hC; cases hC
  have hNne : ¬ regLookup stN.scheduled_updates nm = none := by
    intro he; rw [he] at hN; cases hN
  constructor
  · obtain ⟨o, ho⟩ := covidParseInterval_ok now spec
    cases o with
    | none => simp only [schedule_covid_updates, ho]
    | some p =>
        obtain ⟨ttu, ut⟩ := p
        simp only [schedule_covid_updates, ho]
        rw [if_neg hCne]
  · intro o ho
    cases o with
    | none => simp only [schedule_news_updates, ho]
    | some p =>
        obtain ⟨ttu, ut⟩ := p
        simp only [schedule_news_updates, ho]
        rw [if_neg hNne]

/-- Witness for C8 (amended): duplicate name "dup", interval 5 seconds. -/
theorem C8_amended_witness :
    schedule_covid_updates (IntervalSpec.int 5) "dup" false 0
      ⟨SnapDict.emptyDict, SnapDict.emptyDict, [("dup", ⟨7, true⟩)], [(7, "dup")]⟩ =
      Except.ok ⟨SnapDict.emptyDict, SnapDict.emptyDict, [("dup", ⟨7, true⟩)],
        [(7, "dup")]⟩ ∧
    schedule_news_updates (IntervalSpec.int 5) "dup" false 0
      ⟨[], [], [], [("dup", ⟨7, true⟩)], []⟩ =
      Except.ok ⟨[], [], [], [("dup", ⟨7, true⟩)], []⟩ := by
  obtain ⟨h1, h2⟩ := C8_amended (IntervalSpec.int 5) "dup" false 0
    ⟨SnapDict.emptyDict, SnapDict.emptyDict, [("dup", ⟨7, true⟩)], [(7, "dup")]⟩
    ⟨[], [], [], [("dup", ⟨7, true⟩)], []⟩ rfl rfl
  exact ⟨h1, h2 _ rfl⟩

/-! ## Claim C9 -/

/-- C9 (counterexample): a fetched record that actually lacks the
`new_cases` key makes `process_covid_csv_data` raise `KeyError` from
`item["new_cases"]` in the `next(...)` scan, instead of returning the
"N/A" sentinel. -/
theorem C9_counterexample :
    process_covid_csv_data [[("date", "2021-01-01")]] =
      Except.error (PyError.keyError "new_cases") := rfl

/-- Every record carries the statistic `k` with an empty value. -/
def allEmptyKey (l : List CovidRecord) (k : String) : Bool :=
  l.all (fun r => r.lookup k == some "")

/-- Every record carries the statistic `k` with a nonempty digit value. -/
def allDigitsKey (l : List CovidRecord) (k : String) : Bool :=
  l.all (fun r =>
    match r.lookup k with
    | some v => isDigitsStr v
    | none => false)

theorem findTruthyIdx_all_empty (l : List CovidRecord) (k : String) (i : Nat)
    (h : allEmptyKey l k = true) : findTruthyIdx l k i = Except.ok none := by
  induction l generalizing i with
  | nil => rfl
  | cons r rest ih =>
      simp only [allEmptyKey, List.all_cons, Bool.and_eq_true] at h
      obtain ⟨hr, hrest⟩ := h
      have hv : r.lookup k = some "" := beq_iff_eq.mp hr
      simp only [findTruthyIdx, pyGet, hv, if_true]
      exact ih i.succ hrest

theorem findTruthyIdx_all_digits (r : CovidRecord) (rest : List CovidRecord)
    (k : String) (i : Nat) (h : allDigitsKey (r :: rest) k = true) :
    ∃ v, r.lookup k = some v ∧ isDigitsStr v = true ∧
      findTruthyIdx (r :: rest) k i = Except.ok (some i) := by
  simp only [allDigitsKey, List.all_cons, Bool.and_eq_true] at h
  obtain ⟨hr, _⟩ := h
  cases hlk : r.lookup k with
  | none => simp only [hlk] at hr; exact Bool.noConfusion hr
  | some v =>
      simp only [hlk] at hr
      refine ⟨v, rfl, hr, ?_⟩
      have hvne : ¬ v = "" := by
        intro he; rw [he] at hr; exact absurd hr (by decide)
      simp only [findTruthyIdx, pyGet, hlk]
      rw [if_neg hvne]

theorem statFromLatest_spec (l : List CovidRecord) (k : String)
    (h : allEmptyKey l k = true ∨ allDigitsKey l k = true) :
    ∃ st, statFromLatest l k = Except.ok st ∧
      (allEmptyKey l k = true → st = PyStat.na) := by
  rcases h with he | hd
  · refine ⟨PyStat.na, ?_, fun _ => rfl⟩
    simp only [statFromLatest, findTruthyIdx_all_empty l k 0 he]
  · cases l with
    | nil => exact ⟨PyStat.na, rfl, fun _ => rfl⟩
    | cons r rest =>
        obtain ⟨v, hlk, hdig, hfind⟩ := findTruthyIdx_all_digits r rest k 0 hd
        have hvals := hdig
        unfold isDigitsStr at hvals
        simp only [Bool.and_eq_true] at hvals
        have hvne : v.toList ≠ [] := by
          intro he
          rw [he] at hvals
          simp at hvals
        have hpi : pyInt v = Except.ok ((digitsVal v.toList : Int)) :=
          pyIntChars_digits_ok v.toList hvne hvals.2
        refine ⟨PyStat.val (digitsVal v.toList), ?_, ?_⟩
        · simp only [statFromLatest, hfind, pyIndex, List.get?_cons_zero, pyGet,
            hlk, pyInt] at hpi ⊢
          simp only [hpi]
        · intro hae
          simp only [allEmptyKey, List.all_cons, Bool.and_eq_true] at hae
          have hv := beq_iff_eq.mp hae.1
          rw [hlk] at hv
          cases Option.some.inj hv
          exact absurd hdig (by decide)

theorem sumWindow_ok (l : List CovidRecord)
    (hd : allDigitsKey l "new_cases" = true) :
    ∀ days first, first + days ≤ l.length →
      ∃ n, sumWindow l first days = Except.ok n := by
  intro days
  induction days with
  | zero => intro first _; exact ⟨0, rfl⟩
  | succ d ih =>
      intro first hle
      have hlt : first < l.length := by omega
      have hget : l.get? first = some (l.get ⟨first, hlt⟩) := List.get?_eq_get hlt
      have hmem : l.get ⟨first, hlt⟩ ∈ l := List.get_mem l first hlt
      have hall := List.all_eq_true.mp hd _ hmem
      cases hlk : (l.get ⟨first, hlt⟩).lookup "new_cases" with
      | none => simp only [hlk] at hall; exact Bool.noConfusion hall
      | some v =>
          simp only [hlk] at hall
          have hvals := hall
          unfold isDigitsStr at hvals
          simp only [Bool.and_eq_true] at hvals
          have hvne : v.toList ≠ [] := by
            intro he; rw [he] at hvals; simp at hvals
          have hpi : pyInt v = Except.ok ((digitsVal v.toList : Int)) :=
            pyIntChars_digits_ok v.toList hvne hvals.2
          obtain ⟨n, hn⟩ := ih (first + 1) (by omega)
          refine ⟨(digitsVal v.toList : Int) + n, ?_⟩
          simp only [sumWindow, pyIndex, hget, pyGet, hlk, pyInt] at hpi ⊢
          simp only [hpi, hn]

/-- C9 (amended): when every fetched record carries the three statistic keys,
each with an empty value or a digit value (uniformly per statistic),
`process_covid_csv_data` raises no exception, and independently for each of
the three statistics a column that is empty in every record yields the
explicit "N/A" sentinel; a record actually lacking a key raises `KeyError`
(see the counterexample). -/
theorem C9_amended (l : List CovidRecord)
    (h1 : allEmptyKey l "new_cases" = true ∨ allDigitsKey l "new_cases" = true)
    (h2 : allEmptyKey l "hospital_cases" = true ∨
      allDigitsKey l "hospital_cases" = true)
    (h3 : allEmptyKey l "cum_deaths" = true ∨ allDigitsKey l "cum_deaths" = true) :
    ∃ a b c, process_covid_csv_data l = Except.ok (a, b, c) ∧
      (allEmptyKey l "new_cases" = true → a = PyStat.na) ∧
      (allEmptyKey l "hospital_cases" = true → b = PyStat.na) ∧
      (allEmptyKey l "cum_deaths" = true → c = PyStat.na) := by
  obtain ⟨b, hb, hbna⟩ := statFromLatest_spec l "hospital_cases" h2
  obtain ⟨c, hc, hcna⟩ := statFromLatest_spec l "cum_deaths" h3
  rcases h1 with he | hd
  · refine ⟨PyStat.na, b, c, ?_, fun _ => rfl, hbna, hcna⟩
    simp only [process_covid_csv_data, findTruthyIdx_all_empty l "new_cases" 0 he,
      hb, hc]
  · cases l with
    | nil =>
        refine ⟨PyStat.na, b, c, ?_, fun _ => rfl, hbna, hcna⟩
        simp only [process_covid_csv_data, hb, hc]
        rfl
    | cons r rest =>
        obtain ⟨v, hlk, hdig, hfind⟩ :=
          findTruthyIdx_all_digits r rest "new_cases" 0 hd
        have hdays : (0 + 1) +
            (if (r :: rest).length - (0 + 1) > 7 then 7
             else (r :: rest).length - (0 + 1)) ≤ (r :: rest).length := by
          by_cases h77 : (r :: rest).length - (0 + 1) > 7
          · rw [if_pos h77]
            simp only [List.length_cons] at h77 ⊢
            omega
          · rw [if_neg h77]
            simp only [List.length_cons] at h77 ⊢
            omega
        obtain ⟨n, hsum⟩ := sumWindow_ok (r :: rest) hd
          (if (r :: rest).length - (0 + 1) > 7 then 7
           else (r :: rest).length - (0 + 1)) (0 + 1) hdays
        refine ⟨PyStat.val n, b, c, ?_, ?_, hbna, hcna⟩
        · simp only [process_covid_csv_data, hfind, hsum, hb, hc]
        · intro hae
          simp only [allEmptyKey, List.all_cons, Bool.and_eq_true] at hae
          have hv := beq_iff_eq.mp hae.1
          rw [hlk] at hv
          cases Option.some.inj hv
          exact absurd hdig (by decide)

/-- Witness for C9 (amended): one record with empty new_cases and numeric
hospital/death values. -/
theorem C9_amended_witness :
    ∃ a b c, process_covid_csv_data
        [[("new_cases", ""), ("hospital_cases", "5"), ("cum_deaths", "7")]] =
        Except.ok (a, b, c) ∧
      (allEmptyKey [[("new_cases", ""), ("hospital_cases", "5"),
          ("cum_deaths", "7")]] "new_cases" = true → a = PyStat.na) ∧
      (allEmptyKey [[("new_cases", ""), ("hospital_cases", "5"),
          ("cum_deaths", "7")]] "hospital_cases" = true → b = PyStat.na) ∧
      (allEmptyKey [[("new_cases", ""), ("hospital_cases", "5"),
          ("cum_deaths", "7")]] "cum_deaths" = true → c = PyStat.na) :=
  C9_amended [[("new_cases", ""), ("hospital_cases", "5"), ("cum_deaths", "7")]]
    (Or.inl (by decide)) (Or.inr (by decide)) (Or.inr (by decide))
